import Mathlib

/-!
Shallow embedding of the n8n-mcp tool/envelope layer
(src/n8n_mcp/models.py, src/n8n_mcp/client.py, src/n8n_mcp/tools/*.py).

Python values that flow through `model_dump()` and the envelope `data`
mappings are modelled by `PyVal`; `datetime` is opaque (an integer tick
count), since no claim computes with timestamps.  Async methods become
pure functions: the outcome of the single outbound HTTP call (or of any
exception raised inside a tool's `try` block) is passed in as an
`Except String _` argument, so "the network answered r" and "the call
raised e" are both explicit inputs.
-/

/-- Opaque stand-in for Python `datetime`; claims never compute with it. -/
structure PyDateTime where
  ticks : Int
deriving Repr

/-- A Python value as produced by pydantic `model_dump()` (python mode):
dicts are ordered association lists, enums dump to their string value. -/
inductive PyVal where
  | pynone
  | bool (b : Bool)
  | int (n : Int)
  | str (s : String)
  | list (xs : List PyVal)
  | dict (fields : List (String × PyVal))
  | dt (d : PyDateTime)
deriving Repr

/-- `dict[str, Any]` in the source. -/
abbrev PyDict := List (String × PyVal)

/-- Serialize an optional datetime field the way `model_dump()` does. -/
def optDtVal : Option PyDateTime → PyVal
  | Option.none => PyVal.pynone
  | Option.some d => PyVal.dt d

/-- `ExecutionStatus` enum from models.py. -/
inductive ExecutionStatus where
  | running
  | success
  | failed
  | canceled
  | waiting
deriving Repr

/-- The `.value` string of each `ExecutionStatus` member. -/
def ExecutionStatus.value : ExecutionStatus → String
  | .running => "running"
  | .success => "success"
  | .failed => "failed"
  | .canceled => "canceled"
  | .waiting => "waiting"

/-- `Workflow` model from models.py. -/
structure Workflow where
  id : String
  name : String
  active : Bool := false
  nodes : List PyDict := []
  connections : PyDict := []
  settings : PyDict := []
  created_at : Option PyDateTime := Option.none
  updated_at : Option PyDateTime := Option.none
  tags : List String := []
deriving Repr

/-- `WorkflowCreate` model from models.py. -/
structure WorkflowCreate where
  name : String
  nodes : List PyDict := []
  connections : PyDict := []
  settings : PyDict := []
  active : Bool := false
  tags : List String := []
deriving Repr

/-- `WorkflowUpdate` model from models.py. -/
structure WorkflowUpdate where
  name : Option String := Option.none
  nodes : Option (List PyDict) := Option.none
  connections : Option PyDict := Option.none
  settings : Option PyDict := Option.none
  tags : Option (List String) := Option.none
deriving Repr

/-- `Execution` model from models.py. -/
structure Execution where
  id : String
  workflow_id : String
  status : ExecutionStatus
  started_at : Option PyDateTime := Option.none
  stopped_at : Option PyDateTime := Option.none
  data : Option PyDict := Option.none
  error : Option String := Option.none
deriving Repr

/-- `Credential` model from models.py; it has no secret-data field. -/
structure Credential where
  id : String
  name : String
  type : String
  created_at : Option PyDateTime := Option.none
  updated_at : Option PyDateTime := Option.none
deriving Repr

/-- `CredentialCreate` model from models.py: the only credential model
carrying the secret `data` mapping. -/
structure CredentialCreate where
  name : String
  type : String
  data : PyDict
deriving Repr

/-- `ToolResponse` envelope from models.py. -/
structure ToolResponse where
  success : Bool
  message : String
  data : Option PyDict := Option.none
  error : Option String := Option.none
  next_steps : Option (List String) := Option.none
deriving Repr

/-- `Workflow.model_dump()`. -/
def Workflow.model_dump (w : Workflow) : PyVal :=
  PyVal.dict
    [("id", PyVal.str w.id),
     ("name", PyVal.str w.name),
     ("active", PyVal.bool w.active),
     ("nodes", PyVal.list (w.nodes.map PyVal.dict)),
     ("connections", PyVal.dict w.connections),
     ("settings", PyVal.dict w.settings),
     ("created_at", optDtVal w.created_at),
     ("updated_at", optDtVal w.updated_at),
     ("tags", PyVal.list (w.tags.map PyVal.str))]

/-- `Execution.model_dump()`. -/
def Execution.model_dump (e : Execution) : PyVal :=
  PyVal.dict
    [("id", PyVal.str e.id),
     ("workflow_id", PyVal.str e.workflow_id),
     ("status", PyVal.str e.status.value),
     ("started_at", optDtVal e.started_at),
     ("stopped_at", optDtVal e.stopped_at),
     ("data", match e.data with
              | Option.none => PyVal.pynone
              | Option.some d => PyVal.dict d),
     ("error", match e.error with
               | Option.none => PyVal.pynone
               | Option.some s => PyVal.str s)]

/-- `Credential.model_dump()`. -/
def Credential.model_dump (c : Credential) : PyVal :=
  PyVal.dict
    [("id", PyVal.str c.id),
     ("name", PyVal.str c.name),
     ("type", PyVal.str c.type),
     ("created_at", optDtVal c.created_at),
     ("updated_at", optDtVal c.updated_at)]

/-! ## Client layer (src/n8n_mcp/client.py) -/

/-- The fields of `N8NSettings` (config.py) the client reads; `timeout`
is kept opaque as an integer since no claim computes with it. -/
structure N8NSettings where
  n8n_url : String
  api_key : String := ""
  timeout : Int := 30
  mock_mode : Bool := false
deriving Repr, DecidableEq

/-- The httpx.AsyncClient transport handle as configured by
`_ensure_client`: base url, headers and timeout fixed at creation. -/
structure HttpHandle where
  base_url : String
  headers : List (String × String)
  timeout : Int
deriving Repr, DecidableEq

/-- The mutable client state: `self._client`, `None` until first use. -/
structure ClientState where
  _client : Option HttpHandle
deriving Repr, DecidableEq

/-- The handle `_ensure_client` builds when `self._client is None`. -/
def mkHandle (s : N8NSettings) : HttpHandle :=
  { base_url := s.n8n_url ++ "/api/v1",
    headers := if s.api_key ≠ "" then [("X-N8N-API-KEY", s.api_key)] else [],
    timeout := s.timeout }

/-- `N8NClient._ensure_client`: lazily create the handle, reuse it once set. -/
def ensure_client (s : N8NSettings) (st : ClientState) : HttpHandle × ClientState :=
  match st._client with
  | Option.some h => (h, st)
  | Option.none => (mkHandle s, ⟨Option.some (mkHandle s)⟩)

/-- `N8NClient.close`: `aclose` the handle if any, then set `_client = None`. -/
def close (st : ClientState) : ClientState :=
  ⟨Option.none⟩

/-! Mock implementations, client.py lines 285-401. -/

/-- `_mock_list_workflows`. -/
def _mock_list_workflows : List Workflow :=
  [{ id := "1", name := "Example Workflow", active := true,
     nodes := [[("name", PyVal.str "Start"), ("type", PyVal.str "n8n-nodes-base.start")]],
     connections := [] },
   { id := "2", name := "Test Workflow", active := false,
     nodes := [], connections := [] }]

/-- `_mock_get_workflow`. -/
def _mock_get_workflow (workflow_id : String) : Workflow :=
  { id := workflow_id,
    name := "Workflow " ++ workflow_id,
    active := true,
    nodes := [[("name", PyVal.str "Start"), ("type", PyVal.str "n8n-nodes-base.start")]],
    connections := [] }

/-- `_mock_create_workflow`. -/
def _mock_create_workflow (workflow : WorkflowCreate) : Workflow :=
  { id := "new-workflow-id",
    name := workflow.name,
    active := workflow.active,
    nodes := workflow.nodes,
    connections := workflow.connections,
    settings := workflow.settings }

/-- `_mock_update_workflow`; Python `x or y` on `str | None` and list/dict
fields yields `y` when `x` is None or empty. -/
def pyOrStr (x : Option String) (y : String) : String :=
  match x with
  | Option.none => y
  | Option.some s => if s = "" then y else s

/-- Python `x or y` for an optional list: None or `[]` falls back to `y`. -/
def pyOrList {α : Type} (x : Option (List α)) (y : List α) : List α :=
  match x with
  | Option.none => y
  | Option.some l => if l.isEmpty then y else l

/-- `_mock_update_workflow`. -/
def _mock_update_workflow (workflow_id : String) (updates : WorkflowUpdate) : Workflow :=
  { id := workflow_id,
    name := pyOrStr updates.name ("Workflow " ++ workflow_id),
    active := true,
    nodes := pyOrList updates.nodes [],
    connections := pyOrList updates.connections [] }

/-- `_mock_delete_workflow`. -/
def _mock_delete_workflow (workflow_id : String) : Bool :=
  true

/-- `_mock_activate_workflow` (shared by activate and deactivate). -/
def _mock_activate_workflow (workflow_id : String) (active : Bool) : Workflow :=
  { id := workflow_id,
    name := "Workflow " ++ workflow_id,
    active := active,
    nodes := [],
    connections := [] }

/-- `_mock_execute_workflow`. -/
def _mock_execute_workflow (workflow_id : String) (data : Option PyDict) : Execution :=
  { id := "exec-1",
    workflow_id := workflow_id,
    status := ExecutionStatus.success,
    data := data }

/-- `_mock_list_executions`; note `workflow_id or "1"`. -/
def _mock_list_executions (workflow_id : Option String) (limit : Int) : List Execution :=
  [{ id := "exec-1",
     workflow_id := pyOrStr workflow_id "1",
     status := ExecutionStatus.success }]

/-- `_mock_get_execution`. -/
def _mock_get_execution (execution_id : String) : Execution :=
  { id := execution_id,
    workflow_id := "1",
    status := ExecutionStatus.success }

/-- `_mock_list_credentials`. -/
def _mock_list_credentials : List Credential :=
  [{ id := "1", name := "HTTP Basic", type := "httpBasicAuth" },
   { id := "2", name := "API Key", type := "httpQueryAuth" }]

/-- `_mock_get_credential`. -/
def _mock_get_credential (credential_id : String) : Credential :=
  { id := credential_id,
    name := "Credential " ++ credential_id,
    type := "httpBasicAuth" }

/-- `_mock_create_credential`: the secret `data` mapping is dropped. -/
def _mock_create_credential (credential : CredentialCreate) : Credential :=
  { id := "new-cred-id",
    name := credential.name,
    type := credential.type }

/-! Client operations (client.py lines 74-281).  Each async method
either dispatches to its mock or performs one HTTP call; the live
call's outcome (parsed result, or the exception raised by
`raise_for_status` / transport / model validation) is the `net`
argument. -/

/-- `N8NClient.list_workflows`. -/
def client_list_workflows (s : N8NSettings) (net : Except String (List Workflow)) :
    Except String (List Workflow) :=
  if s.mock_mode then Except.ok _mock_list_workflows else net

/-- `N8NClient.get_workflow`. -/
def client_get_workflow (s : N8NSettings) (workflow_id : String)
    (net : Except String Workflow) : Except String Workflow :=
  if s.mock_mode then Except.ok (_mock_get_workflow workflow_id) else net

/-- `N8NClient.create_workflow`. -/
def client_create_workflow (s : N8NSettings) (workflow : WorkflowCreate)
    (net : Except String Workflow) : Except String Workflow :=
  if s.mock_mode then Except.ok (_mock_create_workflow workflow) else net

/-- `N8NClient.update_workflow`. -/
def client_update_workflow (s : N8NSettings) (workflow_id : String)
    (updates : WorkflowUpdate) (net : Except String Workflow) : Except String Workflow :=
  if s.mock_mode then Except.ok (_mock_update_workflow workflow_id updates) else net

/-- `N8NClient.delete_workflow`. -/
def client_delete_workflow (s : N8NSettings) (workflow_id : String)
    (net : Except String Bool) : Except String Bool :=
  if s.mock_mode then Except.ok (_mock_delete_workflow workflow_id) else net

/-- `N8NClient.activate_workflow`. -/
def client_activate_workflow (s : N8NSettings) (workflow_id : String)
    (net : Except String Workflow) : Except String Workflow :=
  if s.mock_mode then Except.ok (_mock_activate_workflow workflow_id true) else net

/-- `N8NClient.deactivate_workflow`. -/
def client_deactivate_workflow (s : N8NSettings) (workflow_id : String)
    (net : Except String Workflow) : Except String Workflow :=
  if s.mock_mode then Except.ok (_mock_activate_workflow workflow_id false) else net

/-- `N8NClient.execute_workflow`. -/
def client_execute_workflow (s : N8NSettings) (workflow_id : String)
    (data : Option PyDict) (net : Except String Execution) : Except String Execution :=
  if s.mock_mode then Except.ok (_mock_execute_workflow workflow_id data) else net

/-- `N8NClient.list_executions`. -/
def client_list_executions (s : N8NSettings) (workflow_id : Option String)
    (limit : Int) (net : Except String (List Execution)) : Except String (List Execution) :=
  if s.mock_mode then Except.ok (_mock_list_executions workflow_id limit) else net

/-- The query params `N8NClient.list_executions` sends in live mode
(client.py lines 200-202): `workflowId` is added only when the Python
value `workflow_id` is truthy, i.e. not None and not the empty string. -/
def list_executions_params (workflow_id : Option String) (limit : Int) :
    List (String × String) :=
  let params := [("limit", toString limit)]
  match workflow_id with
  | Option.none => params
  | Option.some w => if w = "" then params else params ++ [("workflowId", w)]

/-- `N8NClient.get_execution`. -/
def client_get_execution (s : N8NSettings) (execution_id : String)
    (net : Except String Execution) : Except String Execution :=
  if s.mock_mode then Except.ok (_mock_get_execution execution_id) else net

/-- `N8NClient.delete_execution` (mock path returns True inline). -/
def client_delete_execution (s : N8NSettings) (execution_id : String)
    (net : Except String Bool) : Except String Bool :=
  if s.mock_mode then Except.ok true else net

/-- `N8NClient.list_credentials`. -/
def client_list_credentials (s : N8NSettings) (net : Except String (List Credential)) :
    Except String (List Credential) :=
  if s.mock_mode then Except.ok _mock_list_credentials else net

/-- `N8NClient.get_credential`. -/
def client_get_credential (s : N8NSettings) (credential_id : String)
    (net : Except String Credential) : Except String Credential :=
  if s.mock_mode then Except.ok (_mock_get_credential credential_id) else net

/-- `N8NClient.create_credential`. -/
def client_create_credential (s : N8NSettings) (credential : CredentialCreate)
    (net : Except String Credential) : Except String Credential :=
  if s.mock_mode then Except.ok (_mock_create_credential credential) else net

/-- `N8NClient.delete_credential` (mock path returns True inline). -/
def client_delete_credential (s : N8NSettings) (credential_id : String)
    (net : Except String Bool) : Except String Bool :=
  if s.mock_mode then Except.ok true else net

/-! ## Tool layer (src/n8n_mcp/tools/*.py)

Each registered tool is `try: <build request, await client op, return
success envelope> except Exception as e: <return failure envelope>`.
The tool functions below take the outcome of the awaited client call as
an `Except String _` argument `r`: `Except.ok v` is the value the call
returned, `Except.error e` is `str(e)` for the exception `e` it raised
(a raised request-model validation error lands in the same argument,
since it is caught by the same `except` clause). -/

/-- Tool `list_workflows` (workflow_tools.py lines 21-48). -/
def list_workflows_tool (r : Except String (List Workflow)) : ToolResponse :=
  match r with
  | Except.ok workflows =>
      { success := true,
        message := "Found " ++ toString workflows.length ++ " workflows",
        data := Option.some
          [("workflows", PyVal.list (workflows.map Workflow.model_dump)),
           ("count", PyVal.int workflows.length)] }
  | Except.error e =>
      { success := false,
        message := "Failed to list workflows",
        error := Option.some e }

/-- Tool `get_workflow` (workflow_tools.py lines 50-77). -/
def get_workflow_tool (workflow_id : String) (r : Except String Workflow) : ToolResponse :=
  match r with
  | Except.ok workflow =>
      { success := true,
        message := "Retrieved workflow: " ++ workflow.name,
        data := Option.some [("workflow", workflow.model_dump)] }
  | Except.error e =>
      { success := false,
        message := "Failed to get workflow " ++ workflow_id,
        error := Option.some e }

/-- The `WorkflowCreate` built by tool `create_workflow` from its raw
parameters (workflow_tools.py lines 102-108). -/
def build_workflow_create (name : String) (nodes : Option (List PyDict))
    (connections : Option PyDict) (active : Bool) (tags : Option (List String)) :
    WorkflowCreate :=
  { name := name,
    nodes := pyOrList nodes [],
    connections := pyOrList connections [],
    active := active,
    tags := pyOrList tags [] }

/-- Tool `create_workflow` (workflow_tools.py lines 79-129). -/
def create_workflow_tool (r : Except String Workflow) : ToolResponse :=
  match r with
  | Except.ok created =>
      { success := true,
        message := "Created workflow: " ++ created.name,
        data := Option.some [("workflow", created.model_dump)],
        next_steps := Option.some
          ["Add nodes with update_workflow",
           "Activate with activate_workflow",
           "Execute with execute_workflow"] }
  | Except.error e =>
      { success := false,
        message := "Failed to create workflow",
        error := Option.some e }

/-- The `WorkflowUpdate` built by tool `update_workflow` from its raw
parameters (workflow_tools.py lines 152-156). -/
def build_workflow_update (name : Option String) (nodes : Option (List PyDict))
    (connections : Option PyDict) : WorkflowUpdate :=
  { name := name, nodes := nodes, connections := connections }

/-- Tool `update_workflow` (workflow_tools.py lines 131-172). -/
def update_workflow_tool (workflow_id : String) (r : Except String Workflow) : ToolResponse :=
  match r with
  | Except.ok updated =>
      { success := true,
        message := "Updated workflow: " ++ updated.name,
        data := Option.some [("workflow", updated.model_dump)] }
  | Except.error e =>
      { success := false,
        message := "Failed to update workflow " ++ workflow_id,
        error := Option.some e }

/-- Tool `delete_workflow` (workflow_tools.py lines 174-201). -/
def delete_workflow_tool (workflow_id : String) (r : Except String Bool) : ToolResponse :=
  match r with
  | Except.ok _ =>
      { success := true,
        message := "Deleted workflow " ++ workflow_id,
        data := Option.some [("workflow_id", PyVal.str workflow_id)] }
  | Except.error e =>
      { success := false,
        message := "Failed to delete workflow " ++ workflow_id,
        error := Option.some e }

/-- Tool `activate_workflow` (workflow_tools.py lines 203-230); its
success `data` holds only the id and the literal `active=True`, not the
serialized workflow model. -/
def activate_workflow_tool (workflow_id : String) (r : Except String Workflow) : ToolResponse :=
  match r with
  | Except.ok workflow =>
      { success := true,
        message := "Activated workflow: " ++ workflow.name,
        data := Option.some
          [("workflow_id", PyVal.str workflow_id), ("active", PyVal.bool true)] }
  | Except.error e =>
      { success := false,
        message := "Failed to activate workflow " ++ workflow_id,
        error := Option.some e }

/-- Tool `deactivate_workflow` (workflow_tools.py lines 232-259). -/
def deactivate_workflow_tool (workflow_id : String) (r : Except String Workflow) : ToolResponse :=
  match r with
  | Except.ok workflow =>
      { success := true,
        message := "Deactivated workflow: " ++ workflow.name,
        data := Option.some
          [("workflow_id", PyVal.str workflow_id), ("active", PyVal.bool false)] }
  | Except.error e =>
      { success := false,
        message := "Failed to deactivate workflow " ++ workflow_id,
        error := Option.some e }

/-- Tool `execute_workflow` (execution_tools.py lines 17-58). -/
def execute_workflow_tool (workflow_id : String) (r : Except String Execution) : ToolResponse :=
  match r with
  | Except.ok execution =>
      { success := true,
        message := "Executed workflow, status: " ++ execution.status.value,
        data := Option.some
          [("execution_id", PyVal.str execution.id),
           ("workflow_id", PyVal.str execution.workflow_id),
           ("status", PyVal.str execution.status.value),
           ("data", match execution.data with
                    | Option.none => PyVal.pynone
                    | Option.some d => PyVal.dict d),
           ("error", match execution.error with
                     | Option.none => PyVal.pynone
                     | Option.some s => PyVal.str s)],
        next_steps := Option.some
          ["Check status with get_execution",
           "View results in n8n UI"] }
  | Except.error e =>
      { success := false,
        message := "Failed to execute workflow " ++ workflow_id,
        error := Option.some e }

/-- Tool `list_executions` (execution_tools.py lines 60-94). -/
def list_executions_tool (r : Except String (List Execution)) : ToolResponse :=
  match r with
  | Except.ok executions =>
      { success := true,
        message := "Found " ++ toString executions.length ++ " executions",
        data := Option.some
          [("executions", PyVal.list (executions.map Execution.model_dump)),
           ("count", PyVal.int executions.length)] }
  | Except.error e =>
      { success := false,
        message := "Failed to list executions",
        error := Option.some e }

/-- Tool `get_execution` (execution_tools.py lines 96-125). -/
def get_execution_tool (execution_id : String) (r : Except String Execution) : ToolResponse :=
  match r with
  | Except.ok execution =>
      { success := true,
        message := "Execution status: " ++ execution.status.value,
        data := Option.some [("execution", execution.model_dump)] }
  | Except.error e =>
      { success := false,
        message := "Failed to get execution " ++ execution_id,
        error := Option.some e }

/-- Tool `delete_execution` (execution_tools.py lines 127-154). -/
def delete_execution_tool (execution_id : String) (r : Except String Bool) : ToolResponse :=
  match r with
  | Except.ok _ =>
      { success := true,
        message := "Deleted execution " ++ execution_id,
        data := Option.some [("execution_id", PyVal.str execution_id)] }
  | Except.error e =>
      { success := false,
        message := "Failed to delete execution " ++ execution_id,
        error := Option.some e }

/-- Tool `list_credentials` (credential_tools.py lines 17-44). -/
def list_credentials_tool (r : Except String (List Credential)) : ToolResponse :=
  match r with
  | Except.ok credentials =>
      { success := true,
        message := "Found " ++ toString credentials.length ++ " credentials",
        data := Option.some
          [("credentials", PyVal.list (credentials.map Credential.model_dump)),
           ("count", PyVal.int credentials.length)] }
  | Except.error e =>
      { success := false,
        message := "Failed to list credentials",
        error := Option.some e }

/-- Tool `get_credential` (credential_tools.py lines 46-73). -/
def get_credential_tool (credential_id : String) (r : Except String Credential) : ToolResponse :=
  match r with
  | Except.ok credential =>
      { success := true,
        message := "Retrieved credential: " ++ credential.name,
        data := Option.some [("credential", credential.model_dump)] }
  | Except.error e =>
      { success := false,
        message := "Failed to get credential " ++ credential_id,
        error := Option.some e }

/-- The `CredentialCreate` built by tool `create_credential` from its
raw parameters (credential_tools.py lines 94-98). -/
def build_credential_create (name : String) (credential_type : String)
    (data : PyDict) : CredentialCreate :=
  { name := name, type := credential_type, data := data }

/-- Tool `create_credential` (credential_tools.py lines 75-114). -/
def create_credential_tool (r : Except String Credential) : ToolResponse :=
  match r with
  | Except.ok created =>
      { success := true,
        message := "Created credential: " ++ created.name,
        data := Option.some [("credential", created.model_dump)] }
  | Except.error e =>
      { success := false,
        message := "Failed to create credential",
        error := Option.some e }

/-- Tool `delete_credential` (credential_tools.py lines 116-143). -/
def delete_credential_tool (credential_id : String) (r : Except String Bool) : ToolResponse :=
  match r with
  | Except.ok _ =>
      { success := true,
        message := "Deleted credential " ++ credential_id,
        data := Option.some [("credential_id", PyVal.str credential_id)] }
  | Except.error e =>
      { success := false,
        message := "Failed to delete credential " ++ credential_id,
        error := Option.some e }

/-- The static mapping of tool `list_credential_types`
(credential_tools.py lines 152-167). -/
def credential_types_static : PyDict :=
  [("httpBasicAuth", PyVal.str "HTTP Basic Authentication"),
   ("httpQueryAuth", PyVal.str "HTTP Query Authentication (API key in URL)"),
   ("httpHeaderAuth", PyVal.str "HTTP Header Authentication"),
   ("oAuth2Api", PyVal.str "OAuth2 Authentication"),
   ("jwtAuth", PyVal.str "JWT Authentication"),
   ("slackApi", PyVal.str "Slack API"),
   ("googleApi", PyVal.str "Google API OAuth2"),
   ("githubApi", PyVal.str "GitHub API"),
   ("aws", PyVal.str "AWS Credentials"),
   ("smtp", PyVal.str "SMTP Email Credentials"),
   ("mysql", PyVal.str "MySQL Database"),
   ("postgres", PyVal.str "PostgreSQL Database"),
   ("redis", PyVal.str "Redis Database"),
   ("ssh", PyVal.str "SSH Credentials")]

/-- Tool `list_credential_types` (credential_tools.py lines 145-173).
The Python function reads neither the client nor the settings — it is a
closed constant, which is exactly how the independence from mock mode
and from transport state is expressed here. -/
def list_credential_types_tool : ToolResponse :=
  { success := true,
    message := "Common credential types",
    data := Option.some [("credential_types", PyVal.dict credential_types_static)] }

/-! ## Derived predicates on envelopes -/

/-- Exactly the two legal envelope shapes of spec section 7/8. -/
def envelopeWellFormed (r : ToolResponse) : Prop :=
  (r.success = true ∧ r.data.isSome ∧ r.error = Option.none) ∨
  (r.success = false ∧ r.error.isSome ∧ r.data = Option.none)

/-- A failed envelope carrying `str(e)`, with `data` absent. -/
def failureEnvelope (r : ToolResponse) (e : String) : Prop :=
  r.success = false ∧ r.error = Option.some e ∧ r.data = Option.none

/-- Key list of a dumped model (empty for non-dict values). -/
def PyVal.keys : PyVal → List String
  | PyVal.dict fields => fields.map Prod.fst
  | _ => []

/-- Lookup of a key inside an envelope's `data` mapping. -/
def dataLookup (r : ToolResponse) (k : String) : Option PyVal :=
  match r.data with
  | Option.none => Option.none
  | Option.some d => d.lookup k

/-- Some entry of the envelope's `data` mapping has value `v`. -/
def dataContainsVal (r : ToolResponse) (v : PyVal) : Prop :=
  ∃ p ∈ r.data.getD [], Prod.snd p = v

/-- A fixed mock-mode settings value for concrete witnesses. -/
def mockSettings : N8NSettings :=
  { n8n_url := "http://localhost:5678", mock_mode := true }

/-! ## Claims -/

/-- C1: every tool invocation — any of the 16 tools, for every client
outcome (hence mock or live, success or failure) — yields an envelope
that satisfies exactly one of `success=true` with `data` populated and
`error` absent, or `success=false` with `error` populated and `data`
absent. -/
theorem C1_envelope_exclusivity :
    (∀ r, envelopeWellFormed (list_workflows_tool r)) ∧
    (∀ wid r, envelopeWellFormed (get_workflow_tool wid r)) ∧
    (∀ r, envelopeWellFormed (create_workflow_tool r)) ∧
    (∀ wid r, envelopeWellFormed (update_workflow_tool wid r)) ∧
    (∀ wid r, envelopeWellFormed (delete_workflow_tool wid r)) ∧
    (∀ wid r, envelopeWellFormed (activate_workflow_tool wid r)) ∧
    (∀ wid r, envelopeWellFormed (deactivate_workflow_tool wid r)) ∧
    (∀ wid r, envelopeWellFormed (execute_workflow_tool wid r)) ∧
    (∀ r, envelopeWellFormed (list_executions_tool r)) ∧
    (∀ eid r, envelopeWellFormed (get_execution_tool eid r)) ∧
    (∀ eid r, envelopeWellFormed (delete_execution_tool eid r)) ∧
    (∀ r, envelopeWellFormed (list_credentials_tool r)) ∧
    (∀ cid r, envelopeWellFormed (get_credential_tool cid r)) ∧
    (∀ r, envelopeWellFormed (create_credential_tool r)) ∧
    (∀ cid r, envelopeWellFormed (delete_credential_tool cid r)) ∧
    envelopeWellFormed list_credential_types_tool := by
  refine ⟨?_, ?_, ?_, ?_, ?_, ?_, ?_, ?_, ?_, ?_, ?_, ?_, ?_, ?_, ?_,
    Or.inl ⟨rfl, rfl, rfl⟩⟩
  all_goals
    intros
    rename_i r
    cases r <;>
      simp [envelopeWellFormed, list_workflows_tool, get_workflow_tool,
            create_workflow_tool, update_workflow_tool, delete_workflow_tool,
            activate_workflow_tool, deactivate_workflow_tool,
            execute_workflow_tool, list_executions_tool, get_execution_tool,
            delete_execution_tool, list_credentials_tool, get_credential_tool,
            create_credential_tool, delete_credential_tool]

/-- C2: each tool is a total function into `ToolResponse` — there is no
other output channel — and whenever the body of its `try` block raises
any exception `e` (a Remote Client failure or a request-model
validation error alike, both caught by the same `except Exception`
clause), the tool returns a failed envelope carrying `str(e)`, with
`success=false` and `data` absent, instead of propagating the
exception.  `list_credential_types` has no fallible body and returns
its fixed success envelope on every input. -/
theorem C2_no_exception_escapes :
    (∀ e, failureEnvelope (list_workflows_tool (Except.error e)) e) ∧
    (∀ wid e, failureEnvelope (get_workflow_tool wid (Except.error e)) e) ∧
    (∀ e, failureEnvelope (create_workflow_tool (Except.error e)) e) ∧
    (∀ wid e, failureEnvelope (update_workflow_tool wid (Except.error e)) e) ∧
    (∀ wid e, failureEnvelope (delete_workflow_tool wid (Except.error e)) e) ∧
    (∀ wid e, failureEnvelope (activate_workflow_tool wid (Except.error e)) e) ∧
    (∀ wid e, failureEnvelope (deactivate_workflow_tool wid (Except.error e)) e) ∧
    (∀ wid e, failureEnvelope (execute_workflow_tool wid (Except.error e)) e) ∧
    (∀ e, failureEnvelope (list_executions_tool (Except.error e)) e) ∧
    (∀ eid e, failureEnvelope (get_execution_tool eid (Except.error e)) e) ∧
    (∀ eid e, failureEnvelope (delete_execution_tool eid (Except.error e)) e) ∧
    (∀ e, failureEnvelope (list_credentials_tool (Except.error e)) e) ∧
    (∀ cid e, failureEnvelope (get_credential_tool cid (Except.error e)) e) ∧
    (∀ e, failureEnvelope (create_credential_tool (Except.error e)) e) ∧
    (∀ cid e, failureEnvelope (delete_credential_tool cid (Except.error e)) e) ∧
    (list_credential_types_tool.success = true ∧
      list_credential_types_tool.data.isSome) := by
  refine ⟨?_, ?_, ?_, ?_, ?_, ?_, ?_, ?_, ?_, ?_, ?_, ?_, ?_, ?_, ?_,
    ⟨rfl, rfl⟩⟩
  all_goals intros
  all_goals exact ⟨rfl, rfl, rfl⟩

/-- C3: credential read-back never exposes the secret `data` mapping.
In mock mode, two `create_credential` tool calls that differ only in
the secret `data` argument produce identical envelopes (the mock create
drops the secret before the envelope serializes the result), and every
`Credential` flowing into a list/get/create read-back envelope dumps
exactly the keys id, name, type, created_at, updated_at — no secret
field. -/
theorem C3_credential_secret_never_leaked :
    (∀ s : N8NSettings, s.mock_mode = true →
      ∀ (n t : String) (d1 d2 : PyDict) (net : Except String Credential),
        create_credential_tool
          (client_create_credential s (build_credential_create n t d1) net) =
        create_credential_tool
          (client_create_credential s (build_credential_create n t d2) net)) ∧
    (∀ c : Credential,
      (Credential.model_dump c).keys =
        ["id", "name", "type", "created_at", "updated_at"]) ∧
    (∀ c : Credential, "data" ∉ (Credential.model_dump c).keys) := by
  refine ⟨?_, ?_, ?_⟩
  · intro s hs n t d1 d2 net
    simp [client_create_credential, hs, build_credential_create,
          _mock_create_credential]
  · intro c
    simp [Credential.model_dump, PyVal.keys]
  · intro c
    simp [Credential.model_dump, PyVal.keys]

/-- Witness for C3: concrete mock-mode create calls whose secret
payloads differ yield the same envelope. -/
theorem C3_credential_secret_never_leaked_witness :
    mockSettings.mock_mode = true ∧
    create_credential_tool
      (client_create_credential mockSettings
        (build_credential_create "Acct" "httpBasicAuth"
          [("password", PyVal.str "s3cret")]) (Except.error "unused")) =
    create_credential_tool
      (client_create_credential mockSettings
        (build_credential_create "Acct" "httpBasicAuth" []) (Except.error "unused")) :=
  ⟨rfl, C3_credential_secret_never_leaked.1 mockSettings rfl "Acct" "httpBasicAuth"
    [("password", PyVal.str "s3cret")] [] (Except.error "unused")⟩

/-- C4 counterexample: in mock mode, `activate_workflow "1"` succeeds
but its envelope `data` is the two-entry mapping
`{workflow_id: "1", active: True}`, and no entry of that mapping equals
the serialized workflow model the client call returned — the claim
that every model-returning tool's success `data` contains the result
serialized to a plain mapping fails at `activate_workflow`. -/
theorem C4_activate_data_counterexample :
    (activate_workflow_tool "1"
      (client_activate_workflow mockSettings "1" (Except.error "unused"))).success = true ∧
    (activate_workflow_tool "1"
      (client_activate_workflow mockSettings "1" (Except.error "unused"))).data =
      Option.some [("workflow_id", PyVal.str "1"), ("active", PyVal.bool true)] ∧
    ¬ dataContainsVal
        (activate_workflow_tool "1"
          (client_activate_workflow mockSettings "1" (Except.error "unused")))
        (Workflow.model_dump (_mock_activate_workflow "1" true)) := by
  refine ⟨rfl, rfl, ?_⟩
  intro h
  simp [dataContainsVal, activate_workflow_tool, client_activate_workflow,
        mockSettings, _mock_activate_workflow, Workflow.model_dump] at h

/-- C4 amended: the tools that return a single model instance and do
serialize it put `model_dump` of the result into `data` under the
resource key (`get/create/update workflow`, `get_execution`,
`get/create credential`); `activate_workflow` and `deactivate_workflow`
instead return `data = {workflow_id, active}` without the serialized
model, and `execute_workflow` returns a hand-built projection of the
execution (`execution_id`, `workflow_id`, `status`, `data`, `error`)
rather than its `model_dump`. -/
theorem C4_amended_success_data_payloads :
    (∀ wid w, (get_workflow_tool wid (Except.ok w)).data =
      Option.some [("workflow", w.model_dump)]) ∧
    (∀ w, (create_workflow_tool (Except.ok w)).data =
      Option.some [("workflow", w.model_dump)]) ∧
    (∀ wid w, (update_workflow_tool wid (Except.ok w)).data =
      Option.some [("workflow", w.model_dump)]) ∧
    (∀ eid ex, (get_execution_tool eid (Except.ok ex)).data =
      Option.some [("execution", Execution.model_dump ex)]) ∧
    (∀ cid c, (get_credential_tool cid (Except.ok c)).data =
      Option.some [("credential", Credential.model_dump c)]) ∧
    (∀ c, (create_credential_tool (Except.ok c)).data =
      Option.some [("credential", Credential.model_dump c)]) ∧
    (∀ wid w, (activate_workflow_tool wid (Except.ok w)).data =
      Option.some [("workflow_id", PyVal.str wid), ("active", PyVal.bool true)]) ∧
    (∀ wid w, (deactivate_workflow_tool wid (Except.ok w)).data =
      Option.some [("workflow_id", PyVal.str wid), ("active", PyVal.bool false)]) ∧
    (∀ wid ex, (execute_workflow_tool wid (Except.ok ex)).data =
      Option.some
        [("execution_id", PyVal.str ex.id),
         ("workflow_id", PyVal.str ex.workflow_id),
         ("status", PyVal.str ex.status.value),
         ("data", match ex.data with
                  | Option.none => PyVal.pynone
                  | Option.some d => PyVal.dict d),
         ("error", match ex.error with
                   | Option.none => PyVal.pynone
                   | Option.some s => PyVal.str s)]) := by
  refine ⟨?_, ?_, ?_, ?_, ?_, ?_, ?_, ?_, ?_⟩
  all_goals intros
  all_goals rfl

/-- C5: after `close` the client state is `_client = None`, and the
next live-mode use goes through `_ensure_client`, which recreates the
transport handle from the settings and stores it — a state with
`_client = None` always reopens instead of failing on a closed
resource. -/
theorem C5_close_then_reopen :
    (∀ st : ClientState, (close st)._client = Option.none) ∧
    (∀ (s : N8NSettings) (st : ClientState),
      (ensure_client s (close st)).1 = mkHandle s ∧
      (ensure_client s (close st)).2._client = Option.some (mkHandle s)) ∧
    (∀ (s : N8NSettings) (st : ClientState), st._client = Option.none →
      ensure_client s st = (mkHandle s, ⟨Option.some (mkHandle s)⟩)) := by
  refine ⟨fun st => rfl, fun s st => ⟨rfl, rfl⟩, ?_⟩
  intro s st h
  cases st
  simp_all [ensure_client]

/-- Witness for C5: closing a concrete open client and calling
`_ensure_client` again yields a fresh handle for the settings. -/
theorem C5_close_then_reopen_witness :
    (ClientState.mk (Option.some (mkHandle mockSettings)) |> close)._client =
      Option.none ∧
    (close (ClientState.mk (Option.some (mkHandle mockSettings))))._client =
      Option.none ∧
    ensure_client mockSettings (close (ClientState.mk (Option.some (mkHandle mockSettings)))) =
      (mkHandle mockSettings, ⟨Option.some (mkHandle mockSettings)⟩) :=
  ⟨C5_close_then_reopen.1 (ClientState.mk (Option.some (mkHandle mockSettings))),
   rfl,
   C5_close_then_reopen.2.2 mockSettings
     (close (ClientState.mk (Option.some (mkHandle mockSettings)))) rfl⟩

/-- C6: in mock mode `list_workflows` returns exactly 2 workflows and
`get_workflow s` returns a workflow with id `s` and name
`"Workflow " ++ s`, for every id string; the client result is the mock
value whatever the network outcome would have been — no network
access. -/
theorem C6_mock_list_get_workflows :
    _mock_list_workflows.length = 2 ∧
    (∀ s : String, (_mock_get_workflow s).id = s ∧
      (_mock_get_workflow s).name = "Workflow " ++ s) ∧
    (∀ s : N8NSettings, s.mock_mode = true →
      (∀ net, client_list_workflows s net = Except.ok _mock_list_workflows) ∧
      (∀ wid net, client_get_workflow s wid net = Except.ok (_mock_get_workflow wid))) := by
  refine ⟨rfl, fun s => ⟨rfl, rfl⟩, ?_⟩
  intro s hs
  exact ⟨fun net => by simp [client_list_workflows, hs],
         fun wid net => by simp [client_get_workflow, hs]⟩

/-- Witness for C6 at `"42"`, with the network failing. -/
theorem C6_mock_list_get_workflows_witness :
    mockSettings.mock_mode = true ∧
    client_list_workflows mockSettings (Except.error "net down") =
      Except.ok _mock_list_workflows ∧
    client_get_workflow mockSettings "42" (Except.error "net down") =
      Except.ok (_mock_get_workflow "42") ∧
    (_mock_get_workflow "42").id = "42" ∧
    (_mock_get_workflow "42").name = "Workflow 42" :=
  ⟨rfl,
   (C6_mock_list_get_workflows.2.2 mockSettings rfl).1 (Except.error "net down"),
   (C6_mock_list_get_workflows.2.2 mockSettings rfl).2 "42" (Except.error "net down"),
   (C6_mock_list_get_workflows.2.1 "42").1,
   (C6_mock_list_get_workflows.2.1 "42").2⟩

/-- C7: in mock mode, the `execute_workflow` tool at workflow id
`"wf-1"` with data `{"x": 1}` returns `success=true`, a `data.status`
entry equal to the string `"success"`, and a non-empty `next_steps`
list — for every network outcome. -/
theorem C7_mock_execute_envelope :
    ∀ s : N8NSettings, s.mock_mode = true →
    ∀ net : Except String Execution,
      (execute_workflow_tool "wf-1"
        (client_execute_workflow s "wf-1" (Option.some [("x", PyVal.int 1)]) net)).success
        = true ∧
      dataLookup
        (execute_workflow_tool "wf-1"
          (client_execute_workflow s "wf-1" (Option.some [("x", PyVal.int 1)]) net))
        "status" = Option.some (PyVal.str "success") ∧
      ∃ steps,
        (execute_workflow_tool "wf-1"
          (client_execute_workflow s "wf-1" (Option.some [("x", PyVal.int 1)]) net)).next_steps
          = Option.some steps ∧ steps ≠ [] := by
  intro s hs net
  simp only [client_execute_workflow, hs, if_true]
  refine ⟨rfl, rfl, ⟨_, rfl, by simp⟩⟩

/-- Witness for C7 at the fixed mock settings with the network failing. -/
theorem C7_mock_execute_envelope_witness :
    mockSettings.mock_mode = true ∧
    ((execute_workflow_tool "wf-1"
        (client_execute_workflow mockSettings "wf-1"
          (Option.some [("x", PyVal.int 1)]) (Except.error "net down"))).success
      = true ∧
    dataLookup
      (execute_workflow_tool "wf-1"
        (client_execute_workflow mockSettings "wf-1"
          (Option.some [("x", PyVal.int 1)]) (Except.error "net down")))
      "status" = Option.some (PyVal.str "success") ∧
    ∃ steps,
      (execute_workflow_tool "wf-1"
        (client_execute_workflow mockSettings "wf-1"
          (Option.some [("x", PyVal.int 1)]) (Except.error "net down"))).next_steps
        = Option.some steps ∧ steps ≠ []) :=
  ⟨rfl, C7_mock_execute_envelope mockSettings rfl (Except.error "net down")⟩

/-- C8: in mock mode, creating a workflow named `"N"` with empty nodes
and connections returns a workflow whose name is `"N"`; reading the
returned id back through `get_workflow` returns the mock workflow for
that id, whose name is the fixed function `"Workflow " ++ id` of the
id — the same id always yields the same name. -/
theorem C8_mock_create_get_roundtrip :
    ∀ s : N8NSettings, s.mock_mode = true →
    ∀ net netg : Except String Workflow,
      client_create_workflow s
        (build_workflow_create "N" (Option.some []) (Option.some []) false Option.none)
        net =
        Except.ok (_mock_create_workflow
          (build_workflow_create "N" (Option.some []) (Option.some []) false Option.none)) ∧
      (_mock_create_workflow
        (build_workflow_create "N" (Option.some []) (Option.some []) false Option.none)).name
        = "N" ∧
      client_get_workflow s
        (_mock_create_workflow
          (build_workflow_create "N" (Option.some []) (Option.some []) false Option.none)).id
        netg =
        Except.ok (_mock_get_workflow
          (_mock_create_workflow
            (build_workflow_create "N" (Option.some []) (Option.some []) false Option.none)).id) ∧
      (∀ wid : String, (_mock_get_workflow wid).name = "Workflow " ++ wid) := by
  intro s hs net netg
  refine ⟨by simp [client_create_workflow, hs], rfl,
          by simp [client_get_workflow, hs], fun wid => rfl⟩

/-- Witness for C8: the concrete round trip; the created id is
`"new-workflow-id"` and reading it back names it from that id. -/
theorem C8_mock_create_get_roundtrip_witness :
    mockSettings.mock_mode = true ∧
    (_mock_create_workflow
      (build_workflow_create "N" (Option.some []) (Option.some []) false Option.none)).id
      = "new-workflow-id" ∧
    (_mock_get_workflow "new-workflow-id").name = "Workflow new-workflow-id" ∧
    client_create_workflow mockSettings
      (build_workflow_create "N" (Option.some []) (Option.some []) false Option.none)
      (Except.error "net down") =
      Except.ok (_mock_create_workflow
        (build_workflow_create "N" (Option.some []) (Option.some []) false Option.none)) :=
  ⟨rfl, rfl, rfl,
   (C8_mock_create_get_roundtrip mockSettings rfl
     (Except.error "net down") (Except.error "net down")).1⟩

/-- C9: `list_credential_types` always returns the same successful
envelope whose `data` holds the static 14-entry non-empty mapping of
credential types.  The Python tool body reads neither the client nor
the settings, which the embedding reflects by `list_credential_types_tool`
being a closed constant: its value cannot depend on the mock-mode flag,
on any transport handle, or on any client operation. -/
theorem C9_credential_types_static_tool :
    list_credential_types_tool.success = true ∧
    list_credential_types_tool.data =
      Option.some [("credential_types", PyVal.dict credential_types_static)] ∧
    list_credential_types_tool.error = Option.none ∧
    credential_types_static.length = 14 ∧
    credential_types_static ≠ [] := by
  refine ⟨rfl, rfl, rfl, rfl, by simp [credential_types_static]⟩

/-- C10: `list_executions` treats an empty-string `workflow_id` exactly
like no filter.  In mock mode the single returned execution carries
workflow_id `"1"` when the filter is `None` or `""` and carries `f` for
any non-empty `f`; in live mode the `workflowId` query parameter is
omitted precisely when the filter is `None` or `""`. -/
theorem C10_list_executions_empty_filter :
    (∀ limit : Int,
      (_mock_list_executions Option.none limit).map Execution.workflow_id = ["1"]) ∧
    (∀ limit : Int,
      (_mock_list_executions (Option.some "") limit).map Execution.workflow_id = ["1"]) ∧
    (∀ (f : String) (limit : Int), f ≠ "" →
      (_mock_list_executions (Option.some f) limit).map Execution.workflow_id = [f]) ∧
    (∀ limit : Int,
      list_executions_params Option.none limit = [("limit", toString limit)]) ∧
    (∀ limit : Int,
      list_executions_params (Option.some "") limit = [("limit", toString limit)]) ∧
    (∀ (f : String) (limit : Int), f ≠ "" →
      list_executions_params (Option.some f) limit =
        [("limit", toString limit), ("workflowId", f)]) := by
  refine ⟨fun limit => rfl, fun limit => rfl, ?_, fun limit => rfl, fun limit => rfl, ?_⟩
  · intro f limit hf
    simp [_mock_list_executions, pyOrStr, hf]
  · intro f limit hf
    simp [list_executions_params, hf]

/-- Witness for C10 at the non-empty filter `"wf-9"` with limit 50. -/
theorem C10_list_executions_empty_filter_witness :
    ("wf-9" : String) ≠ "" ∧
    (_mock_list_executions (Option.some "wf-9") 50).map Execution.workflow_id =
      ["wf-9"] ∧
    list_executions_params (Option.some "wf-9") 50 =
      [("limit", "50"), ("workflowId", "wf-9")] ∧
    (_mock_list_executions Option.none 50).map Execution.workflow_id = ["1"] ∧
    (_mock_list_executions (Option.some "") 50).map Execution.workflow_id = ["1"] :=
  ⟨by decide,
   C10_list_executions_empty_filter.2.2.1 "wf-9" 50 (by decide),
   C10_list_executions_empty_filter.2.2.2.2.2 "wf-9" 50 (by decide),
   C10_list_executions_empty_filter.1 50,
   C10_list_executions_empty_filter.2.1 50⟩
